import Mathlib

/-!
Verification of the authentication-mode resolution and configuration
assembly of the web front-end (file `src/app/.../auth-config`, functions
`getActiveAuthMode`, `getOAuthConfig`, `getOIDCConfig`, `getOAuth2Config`).

The TypeScript code is a pure function of the deployment `environment`
record plus the browser origin (`window.location.origin`).  We embed the
environment as an explicit structure and the browser origin as an explicit
`String` parameter.  Configuration string fields that may be unset are
modelled as `String` with the empty string standing for "unset", because
the code only tests them through JavaScript truthiness (`x || y`,
`x ? a : b`), under which the empty string and an absent value behave
identically.  The output `AuthConfig` record of the `angular-oauth2-oidc`
library is modelled with `Option` fields so that a field the code does not
set (such as every field but `clientId` in the Basic branch) is `none`.
-/

/-- Truthiness-based disjunction of TypeScript on strings:
`a || b` evaluates to `a` when `a` is non-empty, else to `b`. -/
def strOr (a b : String) : String :=
  if a = "" then b else a

/-- The `environment.oauth` sub-record (fields read by the code). -/
structure OAuthEnv where
  enabled : Bool
  serverUrl : String
  realm : String
  authorizeUrl : String
  tokenUrl : String
  logoutUrl : String
  redirectUri : String
  scope : String
  appId : String
  deriving DecidableEq, Repr

/-- The `environment.OIDC` sub-record (fields read by the code). -/
structure OIDCEnv where
  oidcServerEnabled : Bool
  oidcBaseUrl : String
  oidcClientId : String
  oidcFrontUrl : String
  deriving DecidableEq, Repr

/-- The deployment `environment` record (fields read by the code). -/
structure Environment where
  production : Bool
  oauth : OAuthEnv
  OIDC : OIDCEnv
  deriving DecidableEq, Repr

/-- `enum AuthMode { OAuth2 = 'oauth2', OIDC = 'oidc', Basic = 'basic' }`. -/
inductive AuthMode where
  | OAuth2
  | OIDC
  | Basic
  deriving DecidableEq, Repr

/-- The `AuthConfig` record of `angular-oauth2-oidc`, restricted to the
fields this code ever sets.  A field left `none` is absent from the
returned JavaScript object. -/
structure AuthConfig where
  issuer : Option String := none
  loginUrl : Option String := none
  tokenEndpoint : Option String := none
  clientId : Option String := none
  redirectUri : Option String := none
  postLogoutRedirectUri : Option String := none
  responseType : Option String := none
  scope : Option String := none
  oidc : Option Bool := none
  useSilentRefresh : Option Bool := none
  requireHttps : Option Bool := none
  showDebugInformation : Option Bool := none
  sessionChecksEnabled : Option Bool := none
  clearHashAfterLogin : Option Bool := none
  skipIssuerCheck : Option Bool := none
  strictDiscoveryDocumentValidation : Option Bool := none
  deriving DecidableEq, Repr

/-- `getActiveAuthMode`: OIDC if `environment.OIDC.oidcServerEnabled`,
else OAuth2 if `environment.oauth.enabled`, else Basic. -/
def getActiveAuthMode (env : Environment) : AuthMode :=
  if env.OIDC.oidcServerEnabled then
    AuthMode.OIDC
  else if env.oauth.enabled then
    AuthMode.OAuth2
  else
    AuthMode.Basic

/-- `getOIDCConfig`: configuration for OIDC-compliant providers.
`origin` is `window.location.origin`. -/
def getOIDCConfig (env : Environment) (origin : String) : AuthConfig :=
  let frontUrl := strOr env.OIDC.oidcFrontUrl origin
  { issuer := some env.OIDC.oidcBaseUrl
    clientId := some env.OIDC.oidcClientId
    redirectUri := some (frontUrl ++ "/callback")
    postLogoutRedirectUri := some (frontUrl ++ "/#/login")
    responseType := some "code"
    scope := some "openid profile email offline_access"
    oidc := some true
    useSilentRefresh := some false
    requireHttps := some env.production
    showDebugInformation := some (!env.production)
    sessionChecksEnabled := some false
    clearHashAfterLogin := some false }

/-- The local `authorizeUrl` binding of `getOAuth2Config`:
explicit override, else Keycloak convention when `serverUrl` is
non-empty, else the empty string. -/
def oauth2AuthorizeUrl (env : Environment) : String :=
  let serverUrl := env.oauth.serverUrl
  let realm := strOr env.oauth.realm "fineract"
  strOr env.oauth.authorizeUrl
    (if serverUrl ≠ "" then
      serverUrl ++ "/realms/" ++ realm ++ "/protocol/openid-connect/auth"
    else "")

/-- The local `tokenUrl` binding of `getOAuth2Config`. -/
def oauth2TokenUrl (env : Environment) : String :=
  let serverUrl := env.oauth.serverUrl
  let realm := strOr env.oauth.realm "fineract"
  strOr env.oauth.tokenUrl
    (if serverUrl ≠ "" then
      serverUrl ++ "/realms/" ++ realm ++ "/protocol/openid-connect/token"
    else "")

/-- The local `logoutUrl` binding of `getOAuth2Config`.  (The source
computes it with the same fallback chain; it is not placed in the
returned record.) -/
def oauth2LogoutUrl (env : Environment) : String :=
  let serverUrl := env.oauth.serverUrl
  let realm := strOr env.oauth.realm "fineract"
  strOr env.oauth.logoutUrl
    (if serverUrl ≠ "" then
      serverUrl ++ "/realms/" ++ realm ++ "/protocol/openid-connect/logout"
    else "")

/-- `getOAuth2Config`: configuration for classic OAuth2 providers
(e.g. Keycloak).  `origin` is `window.location.origin` (the code's
`frontendUrl`). -/
def getOAuth2Config (env : Environment) (origin : String) : AuthConfig :=
  let frontendUrl := origin
  let serverUrl := env.oauth.serverUrl
  let realm := strOr env.oauth.realm "fineract"
  let authorizeUrl := oauth2AuthorizeUrl env
  let tokenUrl := oauth2TokenUrl env
  let redirectUri := strOr env.oauth.redirectUri (frontendUrl ++ "/#/callback")
  let scope := strOr env.oauth.scope "openid profile email"
  { issuer := some (serverUrl ++ "/realms/" ++ realm)
    loginUrl := some authorizeUrl
    tokenEndpoint := some tokenUrl
    redirectUri := some redirectUri
    postLogoutRedirectUri := some (frontendUrl ++ "/#/login")
    clientId := some env.oauth.appId
    responseType := some "code"
    scope := some scope
    useSilentRefresh := some false
    oidc := some false
    skipIssuerCheck := some true
    strictDiscoveryDocumentValidation := some false
    requireHttps := some env.production
    showDebugInformation := some (!env.production)
    sessionChecksEnabled := some false
    clearHashAfterLogin := some false }

/-- `getOAuthConfig`: dispatch on the active mode; the Basic (default)
branch returns the degenerate record `\x7bclientId: ''\x7d`. -/
def getOAuthConfig (env : Environment) (origin : String) : AuthConfig :=
  match getActiveAuthMode env with
  | AuthMode.OIDC => getOIDCConfig env origin
  | AuthMode.OAuth2 => getOAuth2Config env origin
  | AuthMode.Basic => { clientId := some "" }

/-! ### Helper lemmas and concrete environments -/

theorem strOr_of_empty (b : String) : strOr "" b = b := rfl

theorem strOr_of_ne {a : String} (h : a ≠ "") (b : String) : strOr a b = a :=
  if_neg h

/-- An `oauth` sub-record with everything off / unset. -/
def emptyOAuth : OAuthEnv :=
  { enabled := false, serverUrl := "", realm := "", authorizeUrl := ""
    tokenUrl := "", logoutUrl := "", redirectUri := "", scope := "", appId := "" }

/-- An `OIDC` sub-record with everything off / unset. -/
def emptyOIDC : OIDCEnv :=
  { oidcServerEnabled := false, oidcBaseUrl := "", oidcClientId := ""
    oidcFrontUrl := "" }

/-- Concrete environment: both OIDC and OAuth2 inconsistently enabled. -/
def envBothFlags : Environment :=
  { production := true
    oauth := { emptyOAuth with enabled := true, serverUrl := "https://auth.example.com", appId := "web-app" }
    OIDC := { emptyOIDC with oidcServerEnabled := true, oidcBaseUrl := "https://id.example.com", oidcClientId := "web" } }

/-- Concrete environment: neither flag enabled (Basic mode). -/
def envBasicOnly : Environment :=
  { production := false, oauth := emptyOAuth, OIDC := emptyOIDC }

/-- Concrete environment: OAuth2 enabled with a Keycloak server URL,
realm unset, no endpoint overrides. -/
def envOAuthKeycloak : Environment :=
  { production := true
    oauth := { emptyOAuth with enabled := true, serverUrl := "https://auth.example.com", appId := "web-app" }
    OIDC := emptyOIDC }

/-- Concrete environment: OAuth2 enabled with every string field empty. -/
def envOAuthEmpty : Environment :=
  { production := false
    oauth := { emptyOAuth with enabled := true }
    OIDC := emptyOIDC }

/-- Concrete environment: OAuth2 enabled with explicit endpoint and
redirect overrides and an explicit realm and scope. -/
def envOAuthOverride : Environment :=
  { production := true
    oauth := { enabled := true, serverUrl := "https://auth.example.com"
               realm := "corp", authorizeUrl := "https://sso.example.com/authorize"
               tokenUrl := "https://sso.example.com/token"
               logoutUrl := "https://sso.example.com/logout"
               redirectUri := "https://app.example.com/cb"
               scope := "custom", appId := "web-app" }
    OIDC := emptyOIDC }

/-- Concrete environment: OIDC enabled, `oidcFrontUrl` unset. -/
def envOIDCOnly : Environment :=
  { production := true
    oauth := emptyOAuth
    OIDC := { oidcServerEnabled := true, oidcBaseUrl := "https://id.example.com"
              oidcClientId := "web", oidcFrontUrl := "" } }

/-! ### Claims -/

/-- Claim C1: `getActiveAuthMode` resolves by first-match priority:
OIDC when `oidcServerEnabled`, regardless of `oauth.enabled`; else
OAuth2 when `oauth.enabled`; else Basic. -/
theorem getActiveAuthMode_priority (env : Environment) :
    (env.OIDC.oidcServerEnabled = true → getActiveAuthMode env = AuthMode.OIDC) ∧
    (env.OIDC.oidcServerEnabled = false → env.oauth.enabled = true →
      getActiveAuthMode env = AuthMode.OAuth2) ∧
    (env.OIDC.oidcServerEnabled = false → env.oauth.enabled = false →
      getActiveAuthMode env = AuthMode.Basic) := by
  refine ⟨fun h => ?_, fun h h2 => ?_, fun h h2 => ?_⟩
  · simp [getActiveAuthMode, h]
  · simp [getActiveAuthMode, h, h2]
  · simp [getActiveAuthMode, h, h2]

/-- Witness for C1: with both flags enabled, the mode is OIDC. -/
theorem getActiveAuthMode_priority_witness :
    getActiveAuthMode envBothFlags = AuthMode.OIDC :=
  (getActiveAuthMode_priority envBothFlags).1 rfl

/-- Claim C2: when both flags are false, `getOAuthConfig` returns exactly
the degenerate record with `clientId = ""` and every other field absent. -/
theorem getOAuthConfig_basic_sentinel (env : Environment) (origin : String)
    (h1 : env.OIDC.oidcServerEnabled = false) (h2 : env.oauth.enabled = false) :
    getOAuthConfig env origin = { clientId := some "" } := by
  simp [getOAuthConfig, getActiveAuthMode, h1, h2]

/-- Witness for C2 at the concrete Basic-mode environment. -/
theorem getOAuthConfig_basic_sentinel_witness :
    getOAuthConfig envBasicOnly "https://host" = { clientId := some "" } :=
  getOAuthConfig_basic_sentinel envBasicOnly "https://host" rfl rfl

/-- Claim C8: `getOAuthConfig` is deterministic — two calls with
identical environment and browser origin yield structurally equal
outputs. -/
theorem getOAuthConfig_deterministic (env1 env2 : Environment) (o1 o2 : String)
    (henv : env1 = env2) (ho : o1 = o2) :
    getOAuthConfig env1 o1 = getOAuthConfig env2 o2 := by
  rw [henv, ho]

/-- Witness for C8 at a concrete environment and origin. -/
theorem getOAuthConfig_deterministic_witness :
    getOAuthConfig envOAuthKeycloak "https://host" =
      getOAuthConfig envOAuthKeycloak "https://host" :=
  getOAuthConfig_deterministic envOAuthKeycloak envOAuthKeycloak
    "https://host" "https://host" rfl rfl

/-- Claim C10: in OAuth2 mode, `postLogoutRedirectUri` is always
`origin ++ "/#/login"`, built from the browser origin with no
configuration override. -/
theorem getOAuth2Config_postLogoutRedirectUri (env : Environment) (origin : String)
    (h1 : env.OIDC.oidcServerEnabled = false) (h2 : env.oauth.enabled = true) :
    (getOAuthConfig env origin).postLogoutRedirectUri = some (origin ++ "/#/login") := by
  simp [getOAuthConfig, getActiveAuthMode, getOAuth2Config, h1, h2]

/-- Witness for C10: even with every oauth string overridden, the
post-logout redirect comes from the origin. -/
theorem getOAuth2Config_postLogoutRedirectUri_witness :
    (getOAuthConfig envOAuthOverride "https://host").postLogoutRedirectUri =
      some "https://host/#/login" :=
  getOAuth2Config_postLogoutRedirectUri envOAuthOverride "https://host" rfl rfl

/-- Claim C3: in OAuth2 mode the issuer is always
`serverUrl ++ "/realms/" ++ realm` with realm defaulting to
`"fineract"`; with an empty `serverUrl` (and unset realm) this is the
malformed string `"/realms/fineract"`, not an error. -/
theorem getOAuth2Config_issuer (env : Environment) (origin : String)
    (h : getActiveAuthMode env = AuthMode.OAuth2) :
    (getOAuthConfig env origin).issuer =
      some (env.oauth.serverUrl ++ "/realms/" ++
        (if env.oauth.realm = "" then "fineract" else env.oauth.realm)) ∧
    (env.oauth.serverUrl = "" → env.oauth.realm = "" →
      (getOAuthConfig env origin).issuer = some "/realms/fineract") := by
  constructor
  · simp [getOAuthConfig, h, getOAuth2Config, strOr]
  · intro hs hr
    simp [getOAuthConfig, h, getOAuth2Config, strOr, hs, hr]

/-- Witness for C3: with OAuth2 enabled and every string empty, the
issuer is the malformed `"/realms/fineract"`. -/
theorem getOAuth2Config_issuer_witness :
    (getOAuthConfig envOAuthEmpty "https://host").issuer = some "/realms/fineract" :=
  (getOAuth2Config_issuer envOAuthEmpty "https://host" rfl).2 rfl rfl

/-- Claim C4: in OAuth2 mode each of the authorize, token and logout
URLs is resolved by explicit override first, else the Keycloak
convention when `serverUrl` is non-empty (realm defaulting to
`"fineract"`), else the empty string. -/
theorem getOAuth2Config_endpoint_fallback (env : Environment) (origin : String)
    (h : getActiveAuthMode env = AuthMode.OAuth2) :
    ((env.oauth.authorizeUrl ≠ "" →
        (getOAuthConfig env origin).loginUrl = some env.oauth.authorizeUrl) ∧
      (env.oauth.authorizeUrl = "" → env.oauth.serverUrl ≠ "" →
        (getOAuthConfig env origin).loginUrl =
          some (env.oauth.serverUrl ++ "/realms/" ++
            (if env.oauth.realm = "" then "fineract" else env.oauth.realm) ++
            "/protocol/openid-connect/auth")) ∧
      (env.oauth.authorizeUrl = "" → env.oauth.serverUrl = "" →
        (getOAuthConfig env origin).loginUrl = some "")) ∧
    ((env.oauth.tokenUrl ≠ "" →
        (getOAuthConfig env origin).tokenEndpoint = some env.oauth.tokenUrl) ∧
      (env.oauth.tokenUrl = "" → env.oauth.serverUrl ≠ "" →
        (getOAuthConfig env origin).tokenEndpoint =
          some (env.oauth.serverUrl ++ "/realms/" ++
            (if env.oauth.realm = "" then "fineract" else env.oauth.realm) ++
            "/protocol/openid-connect/token")) ∧
      (env.oauth.tokenUrl = "" → env.oauth.serverUrl = "" →
        (getOAuthConfig env origin).tokenEndpoint = some "")) ∧
    ((env.oauth.logoutUrl ≠ "" → oauth2LogoutUrl env = env.oauth.logoutUrl) ∧
      (env.oauth.logoutUrl = "" → env.oauth.serverUrl ≠ "" →
        oauth2LogoutUrl env =
          env.oauth.serverUrl ++ "/realms/" ++
            (if env.oauth.realm = "" then "fineract" else env.oauth.realm) ++
            "/protocol/openid-connect/logout") ∧
      (env.oauth.logoutUrl = "" → env.oauth.serverUrl = "" →
        oauth2LogoutUrl env = "")) := by
  refine ⟨⟨fun ha => ?_, fun ha hs => ?_, fun ha hs => ?_⟩,
          ⟨fun ha => ?_, fun ha hs => ?_, fun ha hs => ?_⟩,
          ⟨fun ha => ?_, fun ha hs => ?_, fun ha hs => ?_⟩⟩ <;>
    simp [getOAuthConfig, getOAuth2Config, oauth2AuthorizeUrl,
      oauth2TokenUrl, oauth2LogoutUrl, strOr, *]

/-- Witness for C4: with `serverUrl` set, realm unset and no explicit
override, the authorize URL follows the Keycloak convention. -/
theorem getOAuth2Config_endpoint_fallback_witness :
    (getOAuthConfig envOAuthKeycloak "https://host").loginUrl =
      some "https://auth.example.com/realms/fineract/protocol/openid-connect/auth" := by
  rw [(getOAuth2Config_endpoint_fallback envOAuthKeycloak "https://host" rfl).1.2.1
    rfl (by decide)]
  rfl

/-- Claim C5: in OIDC mode the returned config is exactly the record
with issuer `oidcBaseUrl`, client id `oidcClientId`, redirect URIs built
from `oidcFrontUrl` (or the browser origin when it is empty), response
type `"code"`, the fixed OIDC scope, `oidc = true`, silent refresh off,
`requireHttps` mirroring `production`, debug info when not production,
and session checks and hash clearing disabled. -/
theorem getOIDCConfig_fields (env : Environment) (origin : String)
    (h : getActiveAuthMode env = AuthMode.OIDC) :
    getOAuthConfig env origin =
      { issuer := some env.OIDC.oidcBaseUrl
        clientId := some env.OIDC.oidcClientId
        redirectUri := some
          ((if env.OIDC.oidcFrontUrl = "" then origin else env.OIDC.oidcFrontUrl) ++
            "/callback")
        postLogoutRedirectUri := some
          ((if env.OIDC.oidcFrontUrl = "" then origin else env.OIDC.oidcFrontUrl) ++
            "/#/login")
        responseType := some "code"
        scope := some "openid profile email offline_access"
        oidc := some true
        useSilentRefresh := some false
        requireHttps := some env.production
        showDebugInformation := some (!env.production)
        sessionChecksEnabled := some false
        clearHashAfterLogin := some false } := by
  simp [getOAuthConfig, h, getOIDCConfig, strOr]

/-- Witness for C5: with `oidcFrontUrl` empty and browser origin
`https://host`, the redirect URI is `https://host/callback`. -/
theorem getOIDCConfig_fields_witness :
    (getOAuthConfig envOIDCOnly "https://host").redirectUri =
      some "https://host/callback" := by
  rw [getOIDCConfig_fields envOIDCOnly "https://host" rfl]
  rfl

/-- Claim C6: `getActiveAuthMode` and `getOAuthConfig` always return a
value, and empty configuration degrades to empty-string fields (here:
OAuth2 mode with empty `serverUrl` and no overrides yields empty login
and token endpoints) rather than a local error. -/
theorem getOAuthConfig_total (env : Environment) (origin : String) :
    (∃ m, getActiveAuthMode env = m) ∧
    (∃ c, getOAuthConfig env origin = c) ∧
    (getActiveAuthMode env = AuthMode.OAuth2 →
      env.oauth.serverUrl = "" → env.oauth.authorizeUrl = "" →
      env.oauth.tokenUrl = "" →
        (getOAuthConfig env origin).loginUrl = some "" ∧
        (getOAuthConfig env origin).tokenEndpoint = some "") := by
  refine ⟨⟨_, rfl⟩, ⟨_, rfl⟩, fun h hs ha ht => ⟨?_, ?_⟩⟩ <;>
    simp [getOAuthConfig, h, getOAuth2Config, oauth2AuthorizeUrl,
      oauth2TokenUrl, strOr, hs, ha, ht]

/-- Witness for C6: the all-empty OAuth2 environment degrades to
empty-string endpoints. -/
theorem getOAuthConfig_total_witness :
    (getOAuthConfig envOAuthEmpty "https://host").loginUrl = some "" ∧
      (getOAuthConfig envOAuthEmpty "https://host").tokenEndpoint = some "" :=
  (getOAuthConfig_total envOAuthEmpty "https://host").2.2 rfl rfl rfl rfl

/-- Claim C7: in OAuth2 mode the redirect URI is the explicit override
else `origin ++ "/#/callback"`, the scope is the explicit override else
`"openid profile email"`, and the config always has `oidc = false`,
`responseType = "code"`, `skipIssuerCheck = true` and
`strictDiscoveryDocumentValidation = false`. -/
theorem getOAuth2Config_redirect_scope_flags (env : Environment) (origin : String)
    (h : getActiveAuthMode env = AuthMode.OAuth2) :
    (env.oauth.redirectUri ≠ "" →
      (getOAuthConfig env origin).redirectUri = some env.oauth.redirectUri) ∧
    (env.oauth.redirectUri = "" →
      (getOAuthConfig env origin).redirectUri = some (origin ++ "/#/callback")) ∧
    (env.oauth.scope ≠ "" →
      (getOAuthConfig env origin).scope = some env.oauth.scope) ∧
    (env.oauth.scope = "" →
      (getOAuthConfig env origin).scope = some "openid profile email") ∧
    (getOAuthConfig env origin).oidc = some false ∧
    (getOAuthConfig env origin).responseType = some "code" ∧
    (getOAuthConfig env origin).skipIssuerCheck = some true ∧
    (getOAuthConfig env origin).strictDiscoveryDocumentValidation = some false := by
  refine ⟨fun hr => ?_, fun hr => ?_, fun hs => ?_, fun hs => ?_, ?_, ?_, ?_, ?_⟩ <;>
    simp [getOAuthConfig, h, getOAuth2Config, strOr, *]

/-- Witness for C7: with no overrides, the redirect URI defaults to the
origin-based hash route. -/
theorem getOAuth2Config_redirect_scope_flags_witness :
    (getOAuthConfig envOAuthEmpty "https://host").redirectUri =
      some "https://host/#/callback" :=
  (getOAuth2Config_redirect_scope_flags envOAuthEmpty "https://host" rfl).2.1 rfl

/-- Claim C9: in OAuth2 mode the client id is `oauth.appId` verbatim,
so an empty `appId` yields `clientId = ""`, the same client-id value
as the Basic-mode sentinel record. -/
theorem getOAuth2Config_clientId (env : Environment) (origin : String)
    (h : getActiveAuthMode env = AuthMode.OAuth2) :
    (getOAuthConfig env origin).clientId = some env.oauth.appId ∧
    (env.oauth.appId = "" →
      (getOAuthConfig env origin).clientId =
        AuthConfig.clientId { clientId := some "" }) := by
  refine ⟨?_, fun ha => ?_⟩ <;> simp [getOAuthConfig, h, getOAuth2Config, *]

/-- Witness for C9: OAuth2 enabled with empty `appId` gives the same
`clientId` as the Basic sentinel. -/
theorem getOAuth2Config_clientId_witness :
    (getOAuthConfig envOAuthEmpty "https://host").clientId =
      AuthConfig.clientId { clientId := some "" } :=
  (getOAuth2Config_clientId envOAuthEmpty "https://host" rfl).2 rfl
